import Mathlib

/-!
Verification development for the gritto backend core
(session-state reconciliation and conflict-checked scheduling layer).

The definitions below are shallow embeddings of the TypeScript sources:
  - backend/src/services/agentService.ts together with the Express route
    handlers (POST /v1/goals, PATCH /v1/me, POST /v1/milestones/:id/tasks,
    PATCH /v1/tasks/:taskId, POST /v1/agent/goal/session:message),
  - backend/src/services/contextService.ts (buildUserContext),
  - backend/src/repositories/sessionRepository.ts, userRepository.ts and
    goalPreviewRepository.ts.

Conventions of the embedding:
  - JS numbers (hours) are modelled as `Rat`; iteration counters as `Int`.
  - ISO calendar-day strings (`YYYY-MM-DD`) compare lexicographically exactly
    as they compare chronologically, so days are modelled as `Nat` day
    indices; the `+ 7` of the context builder models `setDate(getDate()+7)`.
  - `a ?? b` on a JS value that may be `null`/`undefined` is modelled as
    `Option.getD`: `none` stands for "null or undefined".
  - The Firestore document store is modelled as lists of records; fresh
    document ids minted by Firestore are passed in as explicit arguments.
  - `createdAt`/`updatedAt` timestamps are not modelled: no property below
    depends on them.
  - Fallible handlers return `Except ApiErr _` together with the resulting
    store, so that "no write is committed" is expressible.
-/

namespace Gritto

/-- Kernel-computable model of JavaScript `String.prototype.trim` (strip
whitespace from both ends).  Lean's own `String.trim` is defined through
well-founded recursion and does not evaluate inside the kernel, so concrete
instances could not be checked with it. -/
def strTrim (s : String) : String :=
  ⟨((s.data.dropWhile Char.isWhitespace).reverse.dropWhile
      Char.isWhitespace).reverse⟩

/-! Errors (backend/src/errors.ts) -/

/-- Summary of a conflicting active goal, as produced by
`collectActiveGoalSummaries` in the route file. -/
structure GoalSummary where
  goalId : String
  title : String
  weeklyHours : Rat
deriving DecidableEq, Repr

/-- Structured `details` payloads attached to `ApiError`s by the handlers. -/
inductive ErrDetails where
  | noDetails : ErrDetails
  | budget (availableHoursPerWeek requiredHoursPerWeek : Rat)
      (conflictingGoals : List GoalSummary) : ErrDetails
  | taskConflict (conflictingTaskIds : List String) : ErrDetails
deriving DecidableEq, Repr

/-- Model of `ApiError` from backend/src/errors.ts: an HTTP status, a message and
optional structured details. -/
structure ApiErr where
  status : Nat
  message : String
  details : ErrDetails
deriving DecidableEq, Repr

/-! Data model (types/models.ts via the repository mappers) -/

inductive GoalStatus where
  | active | completed | paused | archived
deriving DecidableEq, Repr

structure Goal where
  id : String
  userId : String
  title : String
  description : Option String
  status : GoalStatus
  minHoursPerWeek : Rat
  priority : Int
  color : Option Rat
deriving DecidableEq, Repr

structure User where
  id : String
  email : String
  name : String
  profileImageUrl : Option String
  timezone : String
  availableHoursPerWeek : Rat
deriving DecidableEq, Repr

structure Milestone where
  id : String
  goalId : String
  title : String
  description : Option String
  parentMilestoneId : Option String
deriving DecidableEq, Repr

structure Task where
  id : String
  goalId : String
  milestoneId : String
  userId : String
  title : String
  description : Option String
  date : Nat
  estimatedHours : Rat
  done : Bool
deriving DecidableEq, Repr

/-! Goal and task repositories

`goalRepository.ts`, `taskRepository.ts` and `milestoneRepository.ts` are not
among the provided sources; only their import lists and call sites are.  The
functions below are therefore modelled from the spec (and marked so); they
are plain filtered reads over the document store. -/

/-- Modelled from the spec: `listGoals({userId, status})` of the missing
goalRepository.ts — §2 "Resource Repositories ... CRUD accessors over a
document store"; §3 Goal fields.  Returns the user's goals with the given
status. -/
def listGoals (goals : List Goal) (userId : String) (status : GoalStatus) :
    List Goal :=
  goals.filter (fun g => g.userId == userId && g.status == status)

/-- Modelled from the spec: `sumActiveGoalHours(userId, excludeGoalId?)` of
the missing goalRepository.ts — §4.2 "otherActiveHours (sum of
minHoursPerWeek over the user's other active goals)"; the one-argument form
used by PATCH /v1/me and POST /v1/goals passes no exclusion. -/
def sumActiveGoalHours (goals : List Goal) (userId : String)
    (excludeGoalId : Option String) : Rat :=
  ((goals.filter (fun g =>
      g.userId == userId && g.status == GoalStatus.active &&
        some g.id != excludeGoalId)).map Goal.minHoursPerWeek).sum

/-- Modelled from the spec: `listTasksByMilestone(milestoneId)` of the missing
taskRepository.ts — all tasks owned by the milestone (§3 Task ownership). -/
def listTasksByMilestone (tasks : List Task) (milestoneId : String) :
    List Task :=
  tasks.filter (fun t => t.milestoneId == milestoneId)

/-- Modelled from the spec: `listTasksByDateRange(userId, start, end)` of the
missing taskRepository.ts — the user's tasks whose date lies in the given
range.  Both bounds are inclusive: the in-source caller `toDayRange` (GET
/v1/tasks:query) queries a single day with `start = end = day`, which returns
that day's tasks only under inclusive bounds. -/
def listTasksByDateRange (tasks : List Task) (userId : String)
    (startDay endDay : Nat) : List Task :=
  tasks.filter (fun t =>
    t.userId == userId && decide (startDay ≤ t.date) &&
      decide (t.date ≤ endDay))

/-- Model of `collectActiveGoalSummaries` from the route file: summaries of the user's
active goals, minus an optional excluded goal id. -/
def collectActiveGoalSummaries (goals : List Goal) (userId : String)
    (excludeGoalId : Option String) : List GoalSummary :=
  ((listGoals goals userId GoalStatus.active).filter
      (fun g => some g.id != excludeGoalId)).map
    (fun g => { goalId := g.id, title := g.title,
                weeklyHours := g.minHoursPerWeek })

/-! Context Builder (backend/src/services/contextService.ts) -/

/-- The reduced task shape placed into `upcomingTasks` by `buildUserContext`. -/
structure UpcomingTask where
  id : String
  title : String
  goalId : String
  milestoneId : String
  date : Nat
  estimatedHours : Rat
  done : Bool
deriving DecidableEq, Repr

def toUpcomingTask (t : Task) : UpcomingTask :=
  { id := t.id, title := t.title, goalId := t.goalId,
    milestoneId := t.milestoneId, date := t.date,
    estimatedHours := t.estimatedHours, done := t.done }

/-- One insertion step of a stable sort by ascending date: the new element
goes after every element whose date is less than or equal to its own, which
is how `Array.prototype.sort` (a stable sort, ES2019) orders ties of the
comparator `(a, b) => a.date.localeCompare(b.date)`. -/
def insertByDate (t : UpcomingTask) : List UpcomingTask → List UpcomingTask
  | [] => [t]
  | u :: rest =>
      if t.date < u.date then t :: u :: rest else u :: insertByDate t rest

/-- Stable sort by ascending date, modelling the `.sort` call of
`buildUserContext`. -/
def sortByDate (l : List UpcomingTask) : List UpcomingTask :=
  l.foldl (fun acc t => insertByDate t acc) []

structure UserContext where
  availableHoursLeft : Rat
  upcomingTasks : List UpcomingTask
deriving DecidableEq, Repr

/-- Model of `buildUserContext` from contextService.ts.  `today` is the current
calendar day (`now.toISOString().slice(0, 10)`); the end of the window is
`today + UPCOMING_DAYS` with `UPCOMING_DAYS = 7`. -/
def buildUserContext (goals : List Goal) (tasks : List Task) (user : User)
    (today : Nat) : UserContext :=
  let startDay := today
  let endDay := today + 7
  let ranged := listTasksByDateRange tasks user.id startDay endDay
  let upcoming := (ranged.filter (fun t => !t.done)).map toUpcomingTask
  let activeGoalHours := sumActiveGoalHours goals user.id none
  { availableHoursLeft := max 0 (user.availableHoursPerWeek - activeGoalHours),
    upcomingTasks := sortByDate upcoming }

/-! Hour-budget validator: POST /v1/goals and PATCH /v1/me

Each handler is modelled from the point where the authenticated user record
has been loaded (`findUserById`); request-body type checks (`typeof`,
`Number.isFinite`, `Number.isInteger`) are discharged by the Lean types. -/

structure CreateGoalInput where
  title : String
  description : Option String
  minHoursPerWeek : Rat
  priority : Int
  color : Option Rat
deriving DecidableEq, Repr

def budgetExceededMsg : String :=
  "Available hours are insufficient for current active goals."

/-- POST /v1/goals: validation, hour-budget check, then `createGoal`.
The created goal's `status := active` is modelled from the spec (§4.2, the
glossary and Scenario B: newly created goals count as active), since
`goalRepository.createGoal` is not among the provided sources. -/
def postGoals (user : User) (goals : List Goal) (input : CreateGoalInput)
    (freshId : String) : Except ApiErr Goal × List Goal :=
  if (strTrim input.title) = "" then
    (.error ⟨400, "title is required.", .noDetails⟩, goals)
  else if input.minHoursPerWeek < 0 then
    (.error ⟨400, "minHoursPerWeek must be a non-negative number.",
      .noDetails⟩, goals)
  else
    let existingHours := sumActiveGoalHours goals user.id none
    let totalHours := existingHours + input.minHoursPerWeek
    if user.availableHoursPerWeek < totalHours then
      (.error ⟨409, budgetExceededMsg,
        .budget user.availableHoursPerWeek totalHours
          (collectActiveGoalSummaries goals user.id none)⟩, goals)
    else
      let g : Goal :=
        { id := freshId, userId := user.id, title := (strTrim input.title),
          description := input.description, status := GoalStatus.active,
          minHoursPerWeek := input.minHoursPerWeek,
          priority := input.priority, color := input.color }
      (.ok g, goals ++ [g])

structure PatchMeInput where
  name : Option String
  timezone : Option String
  profileImageUrl : Option (Option String)
  availableHoursPerWeek : Option Rat
deriving DecidableEq, Repr

/-- The field merge performed by `updateUser` (userRepository.ts). -/
def applyUserUpdates (user : User) (input : PatchMeInput) : User :=
  { user with
    name := input.name.getD user.name,
    timezone := input.timezone.getD user.timezone,
    profileImageUrl :=
      match input.profileImageUrl with
      | some p => p
      | none => user.profileImageUrl,
    availableHoursPerWeek :=
      input.availableHoursPerWeek.getD user.availableHoursPerWeek }

/-- PATCH /v1/me: per-field validation (MAX_AVAILABLE_HOURS = 168), the
hour-budget guard on `availableHoursPerWeek`, the `hasUpdate` check, then
`updateUser`.  The user collection is threaded so that "no write is
committed" is expressible. -/
def patchMe (users : List User) (user : User) (goals : List Goal)
    (input : PatchMeInput) : Except ApiErr User × List User :=
  if (match input.name with
      | some n => (strTrim n) == ""
      | none => false) then
    (.error ⟨400, "Invalid name.", .noDetails⟩, users)
  else if (match input.timezone with
      | some tz => (strTrim tz) == ""
      | none => false) then
    (.error ⟨400, "Invalid timezone format.", .noDetails⟩, users)
  else
    match (match input.availableHoursPerWeek with
      | some a =>
        if a < 0 ∨ 168 < a then
          Except.error (⟨400,
            "availableHoursPerWeek must be between 0 and 168.",
            .noDetails⟩ : ApiErr)
        else
          let activeHours := sumActiveGoalHours goals user.id none
          if a < activeHours then
            Except.error ⟨409, budgetExceededMsg,
              .budget a activeHours
                (collectActiveGoalSummaries goals user.id none)⟩
          else Except.ok ()
      | none => Except.ok ()) with
    | .error e => (.error e, users)
    | .ok _ =>
      if input.name = none ∧ input.timezone = none ∧
          input.profileImageUrl = none ∧
          input.availableHoursPerWeek = none then
        (.error ⟨400, "No updatable fields provided.", .noDetails⟩, users)
      else
        let user' := applyUserUpdates user input
        (.ok user', users.map (fun x => if x.id == user.id then user' else x))

/-! Date-conflict validator: task creation and update -/

def taskConflictMsg : String :=
  "Task date conflicts with an existing scheduled task or calendar event."

/-- Model of `ensureNoTaskConflict` from the route file: fail with 409 and the
colliding task ids when another task of the same milestone and user already
sits on the date. -/
def ensureNoTaskConflict (tasks : List Task) (milestoneId userId : String)
    (date : Nat) (excludeTaskId : Option String) : Except ApiErr Unit :=
  let conflicting := (listTasksByMilestone tasks milestoneId).filter
    (fun t => some t.id != excludeTaskId && t.userId == userId &&
      t.date == date)
  if conflicting.length > 0 then
    .error ⟨409, taskConflictMsg, .taskConflict (conflicting.map Task.id)⟩
  else .ok ()

structure CreateTaskInput where
  title : String
  description : Option String
  date : Nat
  estimatedHours : Rat
deriving DecidableEq, Repr

/-- POST /v1/milestones/:milestoneId/tasks, from the point where the owned
milestone has been resolved.  `validateIsoDate` is modelled away by the
`Nat` day type; `validateEstimatedHours` keeps its non-negativity check. -/
def postMilestoneTasks (tasks : List Task) (milestone : Milestone)
    (userId : String) (input : CreateTaskInput) (freshId : String) :
    Except ApiErr Task × List Task :=
  if (strTrim input.title) = "" then
    (.error ⟨400, "title is required.", .noDetails⟩, tasks)
  else if input.estimatedHours < 0 then
    (.error ⟨400, "estimatedHours must be zero or positive.", .noDetails⟩,
      tasks)
  else
    match ensureNoTaskConflict tasks milestone.id userId input.date none with
    | .error e => (.error e, tasks)
    | .ok _ =>
      let t : Task :=
        { id := freshId, goalId := milestone.goalId,
          milestoneId := milestone.id, userId := userId,
          title := (strTrim input.title), description := input.description,
          date := input.date, estimatedHours := input.estimatedHours,
          done := false }
      (.ok t, tasks ++ [t])

structure TaskUpdates where
  title : Option String
  description : Option (Option String)
  date : Option Nat
  estimatedHours : Option Rat
  done : Option Bool
deriving DecidableEq, Repr

/-- The field merge performed by `updateTask` (modelled from the spec:
taskRepository.ts is not among the provided sources; provided fields replace
the stored ones, title trimmed as in the handler). -/
def applyTaskUpdates (t : Task) (u : TaskUpdates) : Task :=
  { t with
    title := match u.title with | some s => strTrim s | none => t.title,
    description :=
      match u.description with | some d => d | none => t.description,
    date := u.date.getD t.date,
    estimatedHours := u.estimatedHours.getD t.estimatedHours,
    done := u.done.getD t.done }

/-- PATCH /v1/tasks/:taskId, from the point where the owned task and its
milestone have been resolved.  Validation order follows the source: title,
then the date branch with its conflict check, then estimatedHours, then the
`hasUpdate` guard, then the write. -/
def patchTask (tasks : List Task) (task : Task) (milestone : Milestone)
    (userId : String) (u : TaskUpdates) : Except ApiErr Task × List Task :=
  if (match u.title with
      | some s => (strTrim s) == ""
      | none => false) then
    (.error ⟨400, "Invalid title.", .noDetails⟩, tasks)
  else
    match (match u.date with
      | some d => ensureNoTaskConflict tasks milestone.id userId d
          (some task.id)
      | none => Except.ok ()) with
    | .error e => (.error e, tasks)
    | .ok _ =>
      if (match u.estimatedHours with
          | some h => decide (h < 0)
          | none => false) then
        (.error ⟨400, "estimatedHours must be zero or positive.",
          .noDetails⟩, tasks)
      else if u.title = none ∧ u.description = none ∧ u.date = none ∧
          u.estimatedHours = none ∧ u.done = none then
        (.error ⟨400, "No updatable fields provided.", .noDetails⟩, tasks)
      else
        let t' := applyTaskUpdates task u
        (.ok t', tasks.map (fun x => if x.id == task.id then t' else x))

/-! Sessions, chat and goal previews
(sessionRepository.ts, goalPreviewRepository.ts) -/

inductive SessionStep where
  | plan_generated | plan_iteration | finalized
deriving DecidableEq, Repr

/-- The free-form context map carried by a session (opaque to the backend:
only stored, passed to the agent and replaced). -/
abbrev Ctx := List (String × String)

structure Session where
  id : String
  userId : String
  chatId : String
  state : SessionStep
  iteration : Int
  goalPreviewId : Option String
  sessionActive : Bool
  context : Ctx
deriving DecidableEq, Repr

inductive Sender where
  | user | agent
deriving DecidableEq, Repr

structure ChatMsg where
  chatId : String
  sessionId : String
  sender : Sender
  message : String
deriving DecidableEq, Repr

/-- The opaque plan JSON carried by previews and agent payloads; only its
optional `id` field is inspected by the backend. -/
structure PreviewData where
  id : Option String
  content : String
deriving DecidableEq, Repr

structure GoalPreviewRec where
  id : String
  userId : String
  sessionId : String
  data : PreviewData
deriving DecidableEq, Repr

structure UpsertGoalPreviewInput where
  id : Option String
  userId : String
  sessionId : String
  data : PreviewData
deriving DecidableEq, Repr

/-- Model of `upsertGoalPreview` from goalPreviewRepository.ts: with an id, update the
existing document in place or create it under that id; without an id, create
a fresh document (Firestore's minted id is the `freshId` argument).  Returns
the resulting record and the updated collection. -/
def upsertGoalPreview (previews : List GoalPreviewRec) (freshId : String)
    (input : UpsertGoalPreviewInput) :
    GoalPreviewRec × List GoalPreviewRec :=
  match input.id with
  | some pid =>
    match previews.find? (fun p => p.id == pid) with
    | some p =>
      let p' := { p with data := input.data }
      (p', previews.map (fun q => if q.id == pid then p' else q))
    | none =>
      let r : GoalPreviewRec :=
        { id := pid, userId := input.userId, sessionId := input.sessionId,
          data := input.data }
      (r, previews ++ [r])
  | none =>
    let r : GoalPreviewRec :=
      { id := freshId, userId := input.userId, sessionId := input.sessionId,
        data := input.data }
    (r, previews ++ [r])

/-- Model of `createSession` from sessionRepository.ts: the fresh session record
(state plan_generated, iteration 0, no preview, active) paired with a new
chat container. -/
def createSessionRecord (sid chatId userId : String) (ctx : Ctx) : Session :=
  { id := sid, userId := userId, chatId := chatId,
    state := SessionStep.plan_generated, iteration := 0,
    goalPreviewId := none, sessionActive := true, context := ctx }

/-! Agent Gateway response (types/models.ts `AgentServiceResponse`,
shaped by the mas.md output contract and the handler's field accesses).
Every `Option` models a field the agent may omit (or set to null, which
`??` treats identically). -/

structure RespState where
  state : Option SessionStep
  iteration : Option Int
  sessionActive : Option Bool
  goalPreviewId : Option String
deriving DecidableEq, Repr

structure ActionPayload where
  goalPreview : Option PreviewData
  asData : PreviewData
deriving DecidableEq, Repr

structure AgentAction where
  type : String
  payload : Option ActionPayload
deriving DecidableEq, Repr

structure AgentResponse where
  reply : String
  action : Option AgentAction
  state : Option RespState
  context : Option Ctx
deriving DecidableEq, Repr

/-- Reads `agentResponse.state?.state`. -/
def respStep (resp : AgentResponse) : Option SessionStep :=
  match resp.state with
  | some st => st.state
  | none => none

/-- Reads `agentResponse.state?.iteration`. -/
def respIteration (resp : AgentResponse) : Option Int :=
  match resp.state with
  | some st => st.iteration
  | none => none

/-- Reads `agentResponse.state?.sessionActive`. -/
def respActive (resp : AgentResponse) : Option Bool :=
  match resp.state with
  | some st => st.sessionActive
  | none => none

/-- Reads `agentResponse.state?.goalPreviewId`. -/
def respPreviewId (resp : AgentResponse) : Option String :=
  match resp.state with
  | some st => st.goalPreviewId
  | none => none

/-- Reads `agentResponse.action?.type` (the empty string stands for "no action
object", which matches none of the literals compared against). -/
def actionType (resp : AgentResponse) : String :=
  match resp.action with
  | some a => a.type
  | none => ""

/-- Computes `payload?.goalPreview ?? payload ??` the empty object, as in the
save_preview branch of the handler. -/
def effectivePreviewPayload (a : AgentAction) : PreviewData :=
  match a.payload with
  | some pl =>
    match pl.goalPreview with
    | some g => g
    | none => pl.asData
  | none => { id := none, content := "" }

/-! POST /v1/agent/goal/session:message -/

structure MsgRequest where
  sessionId : String
  message : String
  contextOverride : Option Ctx
  payloadUserId : Option String
deriving DecidableEq, Repr

structure MsgResponse where
  sessionId : String
  reply : String
  action : Option AgentAction
  state : SessionStep
  iteration : Int
  sessionActive : Bool
  goalPreviewId : Option String
  context : Ctx
deriving DecidableEq, Repr

structure Store where
  sessions : List Session
  chatLog : List ChatMsg
  previews : List GoalPreviewRec
deriving DecidableEq, Repr

/-- Computes `contextOverride && typeof contextOverride === 'object' ?
contextOverride : session.context ?? {}` -/
def resolveContext (session : Session) (override : Option Ctx) : Ctx :=
  override.getD session.context

/-- Model of `appendChatMessage` (sessionRepository.ts), restricted to the modelled
fields: append one immutable record to the chat log (the `updatedAt` bumps
of the chat and session documents are not modelled). -/
def appendChat (st : Store) (session : Session) (sender : Sender)
    (message : String) : Store :=
  { st with chatLog := st.chatLog ++
      [{ chatId := session.chatId, sessionId := session.id,
         sender := sender, message := message }] }

/-- The save_preview branch of the handler: the preview write (if any) and
the local `goalPreviewId` variable after it. -/
def previewResult (resp : AgentResponse) (auth sessionId : String)
    (prior : Option String) (freshId : String)
    (previews : List GoalPreviewRec) :
    Option String × List GoalPreviewRec :=
  match resp.action with
  | some a =>
    if a.type = "save_preview" then
      let pp := effectivePreviewPayload a
      let r := upsertGoalPreview previews freshId
        { id := pp.id, userId := auth, sessionId := sessionId, data := pp }
      (some r.1.id, r.2)
    else (prior, previews)
  | none => (prior, previews)

/-- Lines 924-950 of the route file: preview handling, the finalize
override, and the `updateSession` field reconciliation of one agent turn. -/
def applyAgentTurn (session : Session) (ctx : Ctx) (resp : AgentResponse)
    (auth freshId : String) (previews : List GoalPreviewRec) :
    Session × List GoalPreviewRec :=
  let pr := previewResult resp auth session.id session.goalPreviewId freshId
    previews
  let sessionActive0 := (respActive resp).getD session.sessionActive
  let sessionActive :=
    if actionType resp = "finalize_goal" then false else sessionActive0
  let session' : Session :=
    { session with
      state := (respStep resp).getD session.state,
      iteration := (respIteration resp).getD (session.iteration + 1),
      goalPreviewId :=
        match respPreviewId resp with
        | some g => some g
        | none => pr.1,
      sessionActive := sessionActive,
      context := resp.context.getD ctx }
  (session', pr.2)

/-- The response body returned to the client, mirroring the updated
session. -/
def toMsgResponse (session' : Session) (resp : AgentResponse) : MsgResponse :=
  { sessionId := session'.id, reply := resp.reply, action := resp.action,
    state := session'.state, iteration := session'.iteration,
    sessionActive := session'.sessionActive,
    goalPreviewId := session'.goalPreviewId, context := session'.context }

/-- POST /v1/agent/goal/session:message.  The external agent call is the
`agentOutcome` argument (`invokeAgentService` either yields a response or
throws an `ApiError`); `freshId` is the id Firestore would mint for a newly
created preview.  Returns the handler result together with the resulting
store. -/
def postSessionMessage (st : Store) (auth : String) (req : MsgRequest)
    (agentOutcome : Except ApiErr AgentResponse) (freshId : String) :
    Except ApiErr MsgResponse × Store :=
  if (strTrim req.sessionId) = "" then
    (.error ⟨400, "sessionId is required.", .noDetails⟩, st)
  else if (strTrim req.message) = "" then
    (.error ⟨400, "message is required.", .noDetails⟩, st)
  else if req.payloadUserId ≠ none ∧ req.payloadUserId ≠ some auth then
    (.error ⟨401, "Unauthorized.", .noDetails⟩, st)
  else
    match st.sessions.find? (fun s => s.id == req.sessionId) with
    | none => (.error ⟨400, "Session not found.", .noDetails⟩, st)
    | some session =>
      if session.userId ≠ auth then
        (.error ⟨401, "Unauthorized.", .noDetails⟩, st)
      else if session.sessionActive = false then
        (.error ⟨409,
          "Session is finalized and cannot accept new messages.",
          .noDetails⟩, st)
      else
        let ctx := resolveContext session req.contextOverride
        let st1 := appendChat st session Sender.user req.message
        match agentOutcome with
        | .error e => (.error e, st1)
        | .ok resp =>
          let st2 := appendChat st1 session Sender.agent resp.reply
          let pr := applyAgentTurn session ctx resp auth freshId st2.previews
          let st3 : Store :=
            { st2 with
              sessions := st2.sessions.map
                (fun s => if s.id == session.id then pr.1 else s),
              previews := pr.2 }
          (.ok (toMsgResponse pr.1 resp), st3)

/-! Session lifecycle (for the reachability claims) -/

/-- Sessions reachable through the lifecycle: created by
GET /v1/agent/goal/session:latest and transformed by successful agent turns
(each turn requires the guard `sessionActive = true` of the message
handler; the turn's field reconciliation is `applyAgentTurn`, with the
handler's `userId` equal to the session owner by the ownership guard). -/
inductive ReachableSession : Session → Prop
  | init (sid chatId userId : String) (ctx : Ctx) :
      ReachableSession (createSessionRecord sid chatId userId ctx)
  | turn (s : Session) (override : Option Ctx) (resp : AgentResponse)
      (freshId : String) (previews : List GoalPreviewRec) :
      ReachableSession s → s.sessionActive = true →
      ReachableSession
        (applyAgentTurn s (resolveContext s override) resp s.userId freshId
          previews).1

/-- The agent contract of mas.md (FinalizeAgent): a response that carries
`state.step = finalized` always carries a `finalize_goal` action. -/
def agentContractOk (resp : AgentResponse) : Prop :=
  respStep resp = some SessionStep.finalized →
    actionType resp = "finalize_goal"

/-- Sessions reachable through the lifecycle when every agent response obeys
the mas.md finalize contract. -/
inductive ContractReachable : Session → Prop
  | init (sid chatId userId : String) (ctx : Ctx) :
      ContractReachable (createSessionRecord sid chatId userId ctx)
  | turn (s : Session) (override : Option Ctx) (resp : AgentResponse)
      (freshId : String) (previews : List GoalPreviewRec) :
      ContractReachable s → s.sessionActive = true →
      agentContractOk resp →
      ContractReachable
        (applyAgentTurn s (resolveContext s override) resp s.userId freshId
          previews).1

/-! Theorems -/

/-! Context Builder lemmas -/

theorem mem_insertByDate {x t : UpcomingTask} {l : List UpcomingTask} :
    x ∈ insertByDate t l ↔ x = t ∨ x ∈ l := by
  induction l with
  | nil => simp [insertByDate]
  | cons u rest ih =>
      by_cases h : t.date < u.date
      · simp [insertByDate, h]
      · simp [insertByDate, h, ih]
        tauto

theorem mem_sortByDate {x : UpcomingTask} {l : List UpcomingTask} :
    x ∈ sortByDate l ↔ x ∈ l := by
  suffices h : ∀ acc, x ∈ l.foldl (fun acc t => insertByDate t acc) acc ↔
      x ∈ acc ∨ x ∈ l by
    simpa [sortByDate] using h []
  induction l with
  | nil => simp
  | cons u rest ih =>
      intro acc
      rw [List.foldl_cons, ih, mem_insertByDate]
      simp
      tauto

theorem pairwise_insertByDate {t : UpcomingTask} {l : List UpcomingTask}
    (h : l.Pairwise (fun a b => a.date ≤ b.date)) :
    (insertByDate t l).Pairwise (fun a b => a.date ≤ b.date) := by
  induction l with
  | nil => simp [insertByDate]
  | cons u rest ih =>
      rcases List.pairwise_cons.mp h with ⟨hu, hrest⟩
      by_cases hc : t.date < u.date
      · rw [insertByDate, if_pos hc]
        refine List.pairwise_cons.mpr ⟨?_, h⟩
        intro b hb
        rcases List.mem_cons.mp hb with rfl | hb
        · exact Nat.le_of_lt hc
        · exact Nat.le_trans (Nat.le_of_lt hc) (hu b hb)
      · rw [insertByDate, if_neg hc]
        refine List.pairwise_cons.mpr ⟨?_, ih hrest⟩
        intro b hb
        rcases mem_insertByDate.mp hb with rfl | hb
        · exact Nat.le_of_not_lt hc
        · exact hu b hb

theorem sortByDate_pairwise (l : List UpcomingTask) :
    (sortByDate l).Pairwise (fun a b => a.date ≤ b.date) := by
  suffices h : ∀ acc : List UpcomingTask,
      acc.Pairwise (fun a b => a.date ≤ b.date) →
      (l.foldl (fun acc t => insertByDate t acc) acc).Pairwise
        (fun a b => a.date ≤ b.date) from h [] (by simp)
  induction l with
  | nil => intro acc hacc; simpa using hacc
  | cons u rest ih =>
      intro acc hacc
      rw [List.foldl_cons]
      exact ih _ (pairwise_insertByDate hacc)

theorem filter_insertByDate_of_ne {t : UpcomingTask} {l : List UpcomingTask}
    {d : Nat} (h : t.date ≠ d) :
    (insertByDate t l).filter (fun x => x.date == d) =
      l.filter (fun x => x.date == d) := by
  induction l with
  | nil => simp [insertByDate, h]
  | cons u rest ih =>
      by_cases hc : t.date < u.date
      · rw [insertByDate, if_pos hc]
        simp [List.filter_cons, h]
      · rw [insertByDate, if_neg hc]
        simp only [List.filter_cons, ih]

theorem filter_insertByDate_of_eq {t : UpcomingTask} {l : List UpcomingTask}
    {d : Nat} (hs : l.Pairwise (fun a b => a.date ≤ b.date))
    (h : t.date = d) :
    (insertByDate t l).filter (fun x => x.date == d) =
      l.filter (fun x => x.date == d) ++ [t] := by
  induction l with
  | nil => simp [insertByDate, h]
  | cons u rest ih =>
      rcases List.pairwise_cons.mp hs with ⟨hu, hrest⟩
      by_cases hc : t.date < u.date
      · rw [insertByDate, if_pos hc]
        have hnone : (u :: rest).filter (fun x => x.date == d) = [] := by
          refine List.filter_eq_nil_iff.mpr ?_
          intro a ha
          have hda : d < a.date := by
            rcases List.mem_cons.mp ha with rfl | ha
            · exact h ▸ hc
            · exact Nat.lt_of_lt_of_le (h ▸ hc) (hu a ha)
          simp [Nat.ne_of_gt hda]
        rw [hnone]
        simp [List.filter_cons, h, hnone]
      · rw [insertByDate, if_neg hc]
        rw [List.filter_cons, List.filter_cons, ih hrest]
        by_cases hud : u.date = d
        · simp [hud]
        · simp [hud]

theorem filter_sortByDate (l : List UpcomingTask) (d : Nat) :
    (sortByDate l).filter (fun x => x.date == d) =
      l.filter (fun x => x.date == d) := by
  suffices h : ∀ acc : List UpcomingTask,
      acc.Pairwise (fun a b => a.date ≤ b.date) →
      (l.foldl (fun acc t => insertByDate t acc) acc).filter
          (fun x => x.date == d) =
        acc.filter (fun x => x.date == d) ++
          l.filter (fun x => x.date == d) by
    simpa [sortByDate] using h [] (by simp)
  induction l with
  | nil => intro acc _; simp
  | cons x xs ih =>
      intro acc hacc
      rw [List.foldl_cons, ih _ (pairwise_insertByDate hacc)]
      by_cases hx : x.date = d
      · rw [filter_insertByDate_of_eq hacc hx]
        simp [List.filter_cons, hx, List.append_assoc]
      · rw [filter_insertByDate_of_ne hx]
        simp [List.filter_cons, hx]

/-- Claim C8: the Context Builder's availableHoursLeft equals
max(0, availableHoursPerWeek − sum of active-goal minHoursPerWeek) — spelled
out as the two-sided case characterisation — and is never negative, for
every combination of inputs. -/
theorem c8_available_hours_left (goals : List Goal) (tasks : List Task)
    (user : User) (today : Nat) :
    (buildUserContext goals tasks user today).availableHoursLeft =
      (if sumActiveGoalHours goals user.id none ≤ user.availableHoursPerWeek
       then user.availableHoursPerWeek - sumActiveGoalHours goals user.id none
       else 0) ∧
    0 ≤ (buildUserContext goals tasks user today).availableHoursLeft := by
  unfold buildUserContext
  refine ⟨?_, ?_⟩
  · dsimp only
    by_cases h : sumActiveGoalHours goals user.id none ≤
        user.availableHoursPerWeek
    · rw [if_pos h, max_eq_right (by linarith)]
    · rw [if_neg h, max_eq_left (by linarith)]
  · exact le_max_left 0 _

/-- Claim C9 (amended): upcomingTasks contains exactly the user's not-done
tasks dated within the inclusive window [today, today+7] — both bounds
included — sorted by date ascending, with stable order on ties (the
per-date slices keep the store's order), each reduced to the fields of
`UpcomingTask`. -/
theorem c9_upcoming_tasks_amended (goals : List Goal) (tasks : List Task)
    (user : User) (today : Nat) :
    (∀ u, u ∈ (buildUserContext goals tasks user today).upcomingTasks ↔
      ∃ t, t ∈ tasks ∧ t.userId = user.id ∧ today ≤ t.date ∧
        t.date ≤ today + 7 ∧ t.done = false ∧ u = toUpcomingTask t) ∧
    (buildUserContext goals tasks user today).upcomingTasks.Pairwise
      (fun a b => a.date ≤ b.date) ∧
    ∀ d, (buildUserContext goals tasks user today).upcomingTasks.filter
        (fun x => x.date == d) =
      (((listTasksByDateRange tasks user.id today (today + 7)).filter
          (fun t => !t.done)).map toUpcomingTask).filter
        (fun x => x.date == d) := by
  refine ⟨?_, ?_, ?_⟩
  · intro u
    simp only [buildUserContext, listTasksByDateRange, mem_sortByDate,
      List.mem_map, List.mem_filter, Bool.and_eq_true, beq_iff_eq,
      decide_eq_true_eq, Bool.not_eq_true']
    aesop
  · exact sortByDate_pairwise _
  · intro d
    simpa only [buildUserContext] using
      filter_sortByDate (((listTasksByDateRange tasks user.id today
        (today + 7)).filter (fun t => !t.done)).map toUpcomingTask) d

def taskC9 : Task :=
  { id := "t1", goalId := "g1", milestoneId := "m1", userId := "u1",
    title := "T", description := none, date := 107, estimatedHours := 1,
    done := false }

def userC9 : User :=
  { id := "u1", email := "e", name := "N", profileImageUrl := none,
    timezone := "UTC", availableHoursPerWeek := 20 }

/-- Claim C9 counterexample: with today = 100, a not-done task of the user
dated 107 = today + 7 appears in upcomingTasks, although the claimed
half-open window [today, today+7) excludes day 107: the seventh day
following today is included, not excluded. -/
theorem c9_window_counterexample :
    ((buildUserContext [] [taskC9] userC9 100).upcomingTasks.map
      UpcomingTask.date) = [107] ∧ ¬ (107 < 100 + 7) := by
  refine ⟨?_, by decide⟩
  decide

/-! Hour-budget claims -/

/-- Claim C1: creating a goal fails with the 409 budget error — carrying the
offending total (existing active hours + new hours) and the summaries of the
user's active goals — exactly when that total exceeds
availableHoursPerWeek, and then nothing is written; lowering
availableHoursPerWeek via PATCH /v1/me fails with the same 409 error exactly
when the new value is below the current active-goal total, and then nothing
is written. -/
theorem c1_hour_budget_check (users : List User) (user : User)
    (goals : List Goal) (gIn : CreateGoalInput) (mIn : PatchMeInput)
    (freshId : String) (a : Rat)
    (hgt : strTrim gIn.title ≠ "")
    (hgm : 0 ≤ gIn.minHoursPerWeek)
    (hmn : ∀ n ∈ mIn.name, strTrim n ≠ "")
    (hmtz : ∀ tz ∈ mIn.timezone, strTrim tz ≠ "")
    (hma : mIn.availableHoursPerWeek = some a)
    (ha0 : 0 ≤ a) (ha1 : a ≤ 168) :
    ((postGoals user goals gIn freshId).1 =
        .error ⟨409, budgetExceededMsg,
          .budget user.availableHoursPerWeek
            (sumActiveGoalHours goals user.id none + gIn.minHoursPerWeek)
            (collectActiveGoalSummaries goals user.id none)⟩ ↔
      user.availableHoursPerWeek <
        sumActiveGoalHours goals user.id none + gIn.minHoursPerWeek) ∧
    (user.availableHoursPerWeek <
        sumActiveGoalHours goals user.id none + gIn.minHoursPerWeek →
      (postGoals user goals gIn freshId).2 = goals) ∧
    ((patchMe users user goals mIn).1 =
        .error ⟨409, budgetExceededMsg,
          .budget a (sumActiveGoalHours goals user.id none)
            (collectActiveGoalSummaries goals user.id none)⟩ ↔
      a < sumActiveGoalHours goals user.id none) ∧
    (a < sumActiveGoalHours goals user.id none →
      (patchMe users user goals mIn).2 = users) := by
  have hname : (match mIn.name with
      | some n => strTrim n == ""
      | none => false) = false := by
    cases hn : mIn.name with
    | none => rfl
    | some n =>
        have hne := hmn n (by simp [hn])
        simp [hne]
  have htz : (match mIn.timezone with
      | some tz => strTrim tz == ""
      | none => false) = false := by
    cases hn : mIn.timezone with
    | none => rfl
    | some tz =>
        have hne := hmtz tz (by simp [hn])
        simp [hne]
  have hrange : ¬ (a < 0 ∨ 168 < a) := by
    push_neg
    exact ⟨ha0, ha1⟩
  have hpg : ∀ P : (Except ApiErr Goal × List Goal) → Prop,
      P (postGoals user goals gIn freshId) ↔
      P (if user.availableHoursPerWeek <
            sumActiveGoalHours goals user.id none + gIn.minHoursPerWeek then
          (.error ⟨409, budgetExceededMsg,
            .budget user.availableHoursPerWeek
              (sumActiveGoalHours goals user.id none + gIn.minHoursPerWeek)
              (collectActiveGoalSummaries goals user.id none)⟩, goals)
        else
          (.ok
            { id := freshId, userId := user.id, title := strTrim gIn.title,
              description := gIn.description, status := GoalStatus.active,
              minHoursPerWeek := gIn.minHoursPerWeek,
              priority := gIn.priority, color := gIn.color },
           goals ++
            [{ id := freshId, userId := user.id, title := strTrim gIn.title,
               description := gIn.description, status := GoalStatus.active,
               minHoursPerWeek := gIn.minHoursPerWeek,
               priority := gIn.priority, color := gIn.color }])) := by
    intro P
    rw [postGoals, if_neg hgt, if_neg (not_lt.mpr hgm)]
  refine ⟨?_, ?_, ?_, ?_⟩
  · rw [hpg (fun r => r.1 = _ ↔ _)]
    by_cases hlt : user.availableHoursPerWeek <
        sumActiveGoalHours goals user.id none + gIn.minHoursPerWeek
    · simp [hlt]
    · simp [hlt]
  · intro hlt
    rw [hpg (fun r => r.2 = goals)]
    simp [hlt]
  · simp only [patchMe, hname, htz, hma, Bool.false_eq_true, if_false]
    rw [if_neg hrange]
    by_cases hb : a < sumActiveGoalHours goals user.id none
    · simp [hb]
    · simp [hb, hma]
  · intro hb
    simp only [patchMe, hname, htz, hma, Bool.false_eq_true, if_false]
    rw [if_neg hrange, if_pos hb]

def userB : User :=
  { id := "u1", email := "e", name := "N", profileImageUrl := none,
    timezone := "UTC", availableHoursPerWeek := 20 }

def goalB : Goal :=
  { id := "g1", userId := "u1", title := "First", description := none,
    status := GoalStatus.active, minHoursPerWeek := 10, priority := 1,
    color := none }

def gInB : CreateGoalInput :=
  { title := "Second", description := none, minHoursPerWeek := 15,
    priority := 1, color := none }

def mInB : PatchMeInput :=
  { name := none, timezone := none, profileImageUrl := none,
    availableHoursPerWeek := some 5 }

/-- Witness for C1 (Scenario B): availableHoursPerWeek = 20, one active goal
at 10h; creating a 15h goal is rejected with the 409 budget error and no
write, and lowering availableHoursPerWeek to 5 is rejected likewise. -/
theorem c1_hour_budget_check_witness :
    (postGoals userB [goalB] gInB "g2").1 =
      .error ⟨409, budgetExceededMsg,
        .budget userB.availableHoursPerWeek
          (sumActiveGoalHours [goalB] userB.id none + gInB.minHoursPerWeek)
          (collectActiveGoalSummaries [goalB] userB.id none)⟩ ∧
    (postGoals userB [goalB] gInB "g2").2 = [goalB] ∧
    (patchMe [userB] userB [goalB] mInB).1 =
      .error ⟨409, budgetExceededMsg,
        .budget 5 (sumActiveGoalHours [goalB] userB.id none)
          (collectActiveGoalSummaries [goalB] userB.id none)⟩ ∧
    (patchMe [userB] userB [goalB] mInB).2 = [userB] := by
  have hsum : sumActiveGoalHours [goalB] userB.id none = 10 := by
    simp [sumActiveGoalHours, userB, goalB]
  have hlt1 : userB.availableHoursPerWeek <
      sumActiveGoalHours [goalB] userB.id none + gInB.minHoursPerWeek := by
    rw [hsum]
    norm_num [userB, gInB]
  have hlt2 : (5 : Rat) < sumActiveGoalHours [goalB] userB.id none := by
    rw [hsum]
    norm_num
  obtain ⟨h1, h2, h3, h4⟩ := c1_hour_budget_check [userB] userB [goalB] gInB
    mInB "g2" 5 (by decide) (by norm_num [gInB]) (by simp [mInB])
    (by simp [mInB]) rfl (by norm_num) (by norm_num)
  exact ⟨h1.mpr hlt1, h2 hlt1, h3.mpr hlt2, h4 hlt2⟩

/-! Date-conflict claims -/

/-- The claim's comparison set, stated over the raw store: tasks under the
same milestone, for the same user, on the same date, minus the task being
updated (by id) when there is one. -/
def specConflictSet (tasks : List Task) (mid uid : String) (d : Nat)
    (excludeId : Option String) : List Task :=
  tasks.filter (fun t => some t.id != excludeId && t.milestoneId == mid &&
    t.userId == uid && t.date == d)

theorem ensureNoTaskConflict_spec (tasks : List Task) (mid uid : String)
    (d : Nat) (excl : Option String) :
    ensureNoTaskConflict tasks mid uid d excl =
      (if specConflictSet tasks mid uid d excl = [] then .ok () else
        .error ⟨409, taskConflictMsg,
          .taskConflict ((specConflictSet tasks mid uid d excl).map
            Task.id)⟩) := by
  unfold ensureNoTaskConflict listTasksByMilestone specConflictSet
  rw [List.filter_filter]
  have hpred : ∀ t ∈ tasks,
      (some t.id != excl && t.userId == uid && t.date == d &&
        t.milestoneId == mid) =
      (some t.id != excl && t.milestoneId == mid && t.userId == uid &&
        t.date == d) := by
    intro t _
    cases some t.id != excl <;> cases t.milestoneId == mid <;>
      cases t.userId == uid <;> cases t.date == d <;> rfl
  rw [List.filter_congr hpred]
  by_cases h : tasks.filter (fun t => some t.id != excl &&
      t.milestoneId == mid && t.userId == uid && t.date == d) = []
  · simp [h]
  · simp [h, List.length_pos.mpr h]

/-- Claim C2: task creation, and task update that changes the date, fail
with the 409 conflict error carrying the colliding task ids exactly when
another task of the same milestone and user already sits on the date (the
updated task excluded by id); otherwise the write proceeds, and on failure
nothing is written. -/
theorem c2_task_date_conflict (tasks : List Task) (task : Task)
    (milestone : Milestone) (userId : String) (input : CreateTaskInput)
    (u : TaskUpdates) (freshId : String) (d : Nat)
    (hct : strTrim input.title ≠ "") (hch : 0 ≤ input.estimatedHours)
    (hut : ∀ s ∈ u.title, strTrim s ≠ "")
    (huh : ∀ h ∈ u.estimatedHours, 0 ≤ h)
    (hud : u.date = some d) (_hchg : d ≠ task.date) :
    (((postMilestoneTasks tasks milestone userId input freshId).1 =
        .error ⟨409, taskConflictMsg,
          .taskConflict ((specConflictSet tasks milestone.id userId
            input.date none).map Task.id)⟩ ↔
      specConflictSet tasks milestone.id userId input.date none ≠ []) ∧
    (specConflictSet tasks milestone.id userId input.date none = [] →
      ∃ t, (postMilestoneTasks tasks milestone userId input freshId).1 =
          .ok t ∧
        (postMilestoneTasks tasks milestone userId input freshId).2 =
          tasks ++ [t]) ∧
    (specConflictSet tasks milestone.id userId input.date none ≠ [] →
      (postMilestoneTasks tasks milestone userId input freshId).2 =
        tasks)) ∧
    (((patchTask tasks task milestone userId u).1 =
        .error ⟨409, taskConflictMsg,
          .taskConflict ((specConflictSet tasks milestone.id userId d
            (some task.id)).map Task.id)⟩ ↔
      specConflictSet tasks milestone.id userId d (some task.id) ≠ []) ∧
    (specConflictSet tasks milestone.id userId d (some task.id) = [] →
      (patchTask tasks task milestone userId u).1 =
        .ok (applyTaskUpdates task u)) ∧
    (specConflictSet tasks milestone.id userId d (some task.id) ≠ [] →
      (patchTask tasks task milestone userId u).2 = tasks)) := by
  have htitle : (match u.title with
      | some s => strTrim s == ""
      | none => false) = false := by
    cases hn : u.title with
    | none => rfl
    | some s =>
        have hne := hut s (by simp [hn])
        simp [hne]
  have hhours : (match u.estimatedHours with
      | some h => decide (h < 0)
      | none => false) = false := by
    cases hn : u.estimatedHours with
    | none => rfl
    | some h =>
        have hge := huh h (by simp [hn])
        simp [not_lt.mpr hge]
  constructor
  · rw [postMilestoneTasks, if_neg hct, if_neg (not_lt.mpr hch),
      ensureNoTaskConflict_spec]
    by_cases hc : specConflictSet tasks milestone.id userId input.date
        none = []
    · rw [if_pos hc]
      refine ⟨by simp [hc], fun _ => ⟨_, rfl, rfl⟩, fun hne => absurd hc hne⟩
    · rw [if_neg hc]
      exact ⟨by simp [hc], fun heq => absurd heq hc, fun _ => rfl⟩
  · rw [patchTask]
    simp only [htitle, Bool.false_eq_true, if_false, hud,
      ensureNoTaskConflict_spec]
    by_cases hc : specConflictSet tasks milestone.id userId d
        (some task.id) = []
    · rw [if_pos hc]
      simp only [hhours, Bool.false_eq_true, if_false]
      have hnotall : ¬ (u.title = none ∧ u.description = none ∧
          (some d : Option Nat) = none ∧ u.estimatedHours = none ∧
          u.done = none) := by
        rintro ⟨-, -, hdn, -, -⟩
        exact Option.some_ne_none d hdn
      rw [if_neg hnotall]
      exact ⟨by simp [hc], fun _ => rfl, fun hne => absurd hc hne⟩
    · rw [if_neg hc]
      exact ⟨by simp [hc], fun heq => absurd heq hc, fun _ => rfl⟩

def milC : Milestone :=
  { id := "m1", goalId := "g1", title := "M", description := none,
    parentMilestoneId := none }

def taskC1 : Task :=
  { id := "t1", goalId := "g1", milestoneId := "m1", userId := "u1",
    title := "A", description := none, date := 500, estimatedHours := 2,
    done := false }

def taskC2 : Task :=
  { id := "t2", goalId := "g1", milestoneId := "m1", userId := "u1",
    title := "B", description := none, date := 600, estimatedHours := 2,
    done := false }

def inC : CreateTaskInput :=
  { title := "C", description := none, date := 500, estimatedHours := 1 }

def updC : TaskUpdates :=
  { title := none, description := none, date := some 500,
    estimatedHours := none, done := none }

/-- Witness for C2 (Scenario C): the milestone has a task on day 500;
creating a second task on day 500 is rejected with 409 and the first task's
id, and moving task t2 onto day 500 is rejected likewise. -/
theorem c2_task_date_conflict_witness :
    (postMilestoneTasks [taskC1, taskC2] milC "u1" inC "t3").1 =
      .error ⟨409, taskConflictMsg,
        .taskConflict ((specConflictSet [taskC1, taskC2] milC.id "u1"
          inC.date none).map Task.id)⟩ ∧
    (postMilestoneTasks [taskC1, taskC2] milC "u1" inC "t3").2 =
      [taskC1, taskC2] ∧
    (patchTask [taskC1, taskC2] taskC2 milC "u1" updC).1 =
      .error ⟨409, taskConflictMsg,
        .taskConflict ((specConflictSet [taskC1, taskC2] milC.id "u1" 500
          (some taskC2.id)).map Task.id)⟩ := by
  have hne1 : specConflictSet [taskC1, taskC2] milC.id "u1" inC.date
      none ≠ [] := by decide
  have hne2 : specConflictSet [taskC1, taskC2] milC.id "u1" 500
      (some taskC2.id) ≠ [] := by decide
  obtain ⟨⟨hc1, -, hc2⟩, ⟨hu1, -, -⟩⟩ := c2_task_date_conflict
    [taskC1, taskC2] taskC2 milC "u1" inC updC "t3" 500 (by decide)
    (by norm_num [inC]) (by simp [updC]) (by simp [updC]) rfl (by decide)
  exact ⟨hc1.mpr hne1, hc2 hne1, hu1.mpr hne2⟩

/-! Session-turn lemmas -/

/-- A successful agent turn, with all guards passing, computes exactly the
appended transcript, the reconciled session and the preview write of
`applyAgentTurn`. -/
theorem postSessionMessage_run (st : Store) (auth : String)
    (req : MsgRequest) (resp : AgentResponse) (freshId : String)
    (session : Session)
    (h1 : strTrim req.sessionId ≠ "") (h2 : strTrim req.message ≠ "")
    (h3 : ¬ (req.payloadUserId ≠ none ∧ req.payloadUserId ≠ some auth))
    (hfind : st.sessions.find? (fun s => s.id == req.sessionId) =
      some session)
    (hown : session.userId = auth) (hact : session.sessionActive = true) :
    postSessionMessage st auth req (.ok resp) freshId =
      (.ok (toMsgResponse (applyAgentTurn session
          (resolveContext session req.contextOverride) resp auth freshId
          st.previews).1 resp),
       { sessions := st.sessions.map (fun s =>
            if s.id == session.id then
              (applyAgentTurn session
                (resolveContext session req.contextOverride) resp auth
                freshId st.previews).1
            else s),
         chatLog := (st.chatLog ++
           [{ chatId := session.chatId, sessionId := session.id,
              sender := Sender.user, message := req.message }]) ++
           [{ chatId := session.chatId, sessionId := session.id,
              sender := Sender.agent, message := resp.reply }],
         previews := (applyAgentTurn session
           (resolveContext session req.contextOverride) resp auth freshId
           st.previews).2 }) := by
  rw [postSessionMessage, if_neg h1, if_neg h2, if_neg h3, hfind]
  dsimp only
  rw [if_neg (fun h => h hown), if_neg (by simp [hact])]
  rfl

/-- When the agent action is not save_preview, no preview is written and the
local goalPreviewId keeps its prior value. -/
theorem previewResult_of_not_save (resp : AgentResponse)
    (auth sid : String) (prior : Option String) (freshId : String)
    (previews : List GoalPreviewRec)
    (h : actionType resp ≠ "save_preview") :
    previewResult resp auth sid prior freshId previews =
      (prior, previews) := by
  unfold previewResult
  cases ha : resp.action with
  | none => rfl
  | some a =>
      have h' : ¬ a.type = "save_preview" := by
        simpa [actionType, ha] using h
      dsimp only
      rw [if_neg h']

/-- A finalize_goal action forces the reconciled session inactive. -/
theorem applyAgentTurn_finalize_inactive (session : Session) (ctx : Ctx)
    (resp : AgentResponse) (auth freshId : String)
    (previews : List GoalPreviewRec)
    (hfin : actionType resp = "finalize_goal") :
    (applyAgentTurn session ctx resp auth freshId previews).1.sessionActive =
      false := by
  unfold applyAgentTurn
  simp [hfin]

/-! Claim C3 -/

/-- Claim C3: on a successful turn whose agent action is finalize_goal, the
persisted session is inactive — whatever sessionActive the agent's state
payload carries — the preview collection is untouched, and every session
record in the resulting store is either untouched or inactive. -/
theorem c3_finalize_forces_inactive (st : Store) (auth : String)
    (req : MsgRequest) (resp : AgentResponse) (freshId : String)
    (session : Session)
    (h1 : strTrim req.sessionId ≠ "") (h2 : strTrim req.message ≠ "")
    (h3 : ¬ (req.payloadUserId ≠ none ∧ req.payloadUserId ≠ some auth))
    (hfind : st.sessions.find? (fun s => s.id == req.sessionId) =
      some session)
    (hown : session.userId = auth) (hact : session.sessionActive = true)
    (hfin : actionType resp = "finalize_goal") :
    ∀ out, (postSessionMessage st auth req (.ok resp) freshId).1 =
        .ok out →
      out.sessionActive = false ∧
      (postSessionMessage st auth req (.ok resp) freshId).2.previews =
        st.previews ∧
      ∀ s' ∈ (postSessionMessage st auth req (.ok resp) freshId).2.sessions,
        s' ∈ st.sessions ∨ s'.sessionActive = false := by
  intro out hout
  rw [postSessionMessage_run st auth req resp freshId session h1 h2 h3
    hfind hown hact] at hout ⊢
  have hout' : toMsgResponse (applyAgentTurn session
      (resolveContext session req.contextOverride) resp auth freshId
      st.previews).1 resp = out := by
    simpa using hout
  subst hout'
  have hfin' : actionType resp ≠ "save_preview" := by
    rw [hfin]
    decide
  refine ⟨?_, ?_, ?_⟩
  · exact applyAgentTurn_finalize_inactive session
      (resolveContext session req.contextOverride) resp auth freshId
      st.previews hfin
  · show (applyAgentTurn session
      (resolveContext session req.contextOverride) resp auth freshId
      st.previews).2 = st.previews
    unfold applyAgentTurn
    rw [previewResult_of_not_save resp auth session.id session.goalPreviewId
      freshId st.previews hfin']
  · intro s' hs'
    rcases List.mem_map.mp hs' with ⟨s, hsmem, heq⟩
    by_cases hid : (s.id == session.id) = true
    · rw [if_pos hid] at heq
      right
      rw [← heq]
      exact applyAgentTurn_finalize_inactive session
        (resolveContext session req.contextOverride) resp auth freshId
        st.previews hfin
    · rw [if_neg hid] at heq
      left
      rw [← heq]
      exact hsmem

def sessionE : Session :=
  { id := "s1", userId := "u1", chatId := "c1",
    state := SessionStep.plan_iteration, iteration := 2,
    goalPreviewId := some "p0", sessionActive := true, context := [] }

def storeE : Store := { sessions := [sessionE], chatLog := [], previews := [] }

def reqE : MsgRequest :=
  { sessionId := "s1", message := "looks good", contextOverride := none,
    payloadUserId := none }

def respEState : RespState :=
  { state := some SessionStep.finalized, iteration := none,
    sessionActive := some true, goalPreviewId := none }

def respE : AgentResponse :=
  { reply := "done",
    action := some { type := "finalize_goal", payload := none },
    state := some respEState, context := none }

def outE : MsgResponse :=
  { sessionId := "s1", reply := "done", action := respE.action,
    state := SessionStep.finalized, iteration := 3, sessionActive := false,
    goalPreviewId := some "p0", context := [] }

/-- Witness for C3 (Scenario E): the agent finalizes while claiming
sessionActive = true; the persisted session is nevertheless inactive and no
preview is written. -/
theorem c3_finalize_forces_inactive_witness :
    outE.sessionActive = false ∧
    (postSessionMessage storeE "u1" reqE (.ok respE) "p1").2.previews =
      storeE.previews ∧
    ∀ s' ∈ (postSessionMessage storeE "u1" reqE (.ok respE) "p1").2.sessions,
      s' ∈ storeE.sessions ∨ s'.sessionActive = false :=
  c3_finalize_forces_inactive storeE "u1" reqE respE "p1" sessionE
    (by decide) (by decide) (by decide) rfl rfl rfl rfl outE rfl

/-! Claim C4 -/

def sessionD0 : Session :=
  { id := "s1", userId := "u1", chatId := "c1",
    state := SessionStep.plan_generated, iteration := 0,
    goalPreviewId := none, sessionActive := true, context := [] }

def storeD0 : Store :=
  { sessions := [sessionD0], chatLog := [], previews := [] }

def reqD0 : MsgRequest :=
  { sessionId := "s1", message := "m",
    contextOverride := some [("k", "v")], payloadUserId := none }

def respD0 : AgentResponse :=
  { reply := "r", action := none, state := none, context := none }

/-- Claim C4 counterexample: the agent omits `context`, yet the persisted
session's context is the request's contextOverride, not the prior session's
context — the omitted field does not hold over from the prior session. -/
theorem c4_context_fallback_counterexample :
    respD0.context = none ∧
    (postSessionMessage storeD0 "u1" reqD0 (.ok respD0) "p1").1 =
      .ok { sessionId := "s1", reply := "r", action := none,
            state := SessionStep.plan_generated, iteration := 1,
            sessionActive := true, goalPreviewId := none,
            context := [("k", "v")] } ∧
    [("k", "v")] ≠ sessionD0.context :=
  ⟨rfl, rfl, by decide⟩

/-- Claim C4 (amended): on a successful turn, each omitted agent field falls
back as the handler computes it — iteration to previous + 1; state to the
prior session's state; goalPreviewId to the prior value, except that a
save_preview action substitutes the saved preview's id; sessionActive to the
prior value, except that a finalize_goal action forces false; and context to
the request's effective context, which is the inbound contextOverride when
one is supplied and the prior session's context otherwise. -/
theorem c4_omitted_fields_fallback (st : Store) (auth : String)
    (req : MsgRequest) (resp : AgentResponse) (freshId : String)
    (session : Session)
    (h1 : strTrim req.sessionId ≠ "") (h2 : strTrim req.message ≠ "")
    (h3 : ¬ (req.payloadUserId ≠ none ∧ req.payloadUserId ≠ some auth))
    (hfind : st.sessions.find? (fun s => s.id == req.sessionId) =
      some session)
    (hown : session.userId = auth) (hact : session.sessionActive = true) :
    ∀ out, (postSessionMessage st auth req (.ok resp) freshId).1 =
        .ok out →
      (respIteration resp = none →
        out.iteration = session.iteration + 1) ∧
      (respStep resp = none → out.state = session.state) ∧
      (respPreviewId resp = none →
        out.goalPreviewId = (previewResult resp auth session.id
          session.goalPreviewId freshId st.previews).1) ∧
      (actionType resp ≠ "save_preview" →
        (previewResult resp auth session.id session.goalPreviewId freshId
          st.previews).1 = session.goalPreviewId) ∧
      (respActive resp = none →
        out.sessionActive = (if actionType resp = "finalize_goal" then
          false else session.sessionActive)) ∧
      (resp.context = none →
        out.context = resolveContext session req.contextOverride) := by
  intro out hout
  rw [postSessionMessage_run st auth req resp freshId session h1 h2 h3
    hfind hown hact] at hout
  have hout' : toMsgResponse (applyAgentTurn session
      (resolveContext session req.contextOverride) resp auth freshId
      st.previews).1 resp = out := by
    simpa using hout
  subst hout'
  refine ⟨?_, ?_, ?_, ?_, ?_, ?_⟩
  · intro h
    show ((respIteration resp).getD (session.iteration + 1)) = _
    rw [h, Option.getD_none]
  · intro h
    show ((respStep resp).getD session.state) = _
    rw [h, Option.getD_none]
  · intro h
    show (match respPreviewId resp with
      | some g => some g
      | none => (previewResult resp auth session.id session.goalPreviewId
          freshId st.previews).1) = _
    rw [h]
  · intro h
    rw [previewResult_of_not_save resp auth session.id session.goalPreviewId
      freshId st.previews h]
  · intro h
    show (if actionType resp = "finalize_goal" then false else
      (respActive resp).getD session.sessionActive) = _
    rw [h, Option.getD_none]
  · intro h
    show (resp.context.getD (resolveContext session req.contextOverride)) = _
    rw [h, Option.getD_none]

def sessionD : Session :=
  { id := "s1", userId := "u1", chatId := "c1",
    state := SessionStep.plan_generated, iteration := 0,
    goalPreviewId := none, sessionActive := true, context := [] }

def storeD : Store :=
  { sessions := [sessionD], chatLog := [], previews := [] }

def reqD : MsgRequest :=
  { sessionId := "s1", message := "plan it", contextOverride := none,
    payloadUserId := none }

def respDState : RespState :=
  { state := none, iteration := none, sessionActive := none,
    goalPreviewId := none }

def respDPayload : ActionPayload :=
  { goalPreview := some { id := none, content := "draft" },
    asData := { id := none, content := "draft" } }

def respD : AgentResponse :=
  { reply := "here is a plan",
    action := some { type := "save_preview", payload := some respDPayload },
    state := some respDState, context := none }

def outD : MsgResponse :=
  { sessionId := "s1", reply := "here is a plan", action := respD.action,
    state := SessionStep.plan_generated, iteration := 1,
    sessionActive := true, goalPreviewId := some "p1", context := [] }

/-- Witness for C4 (Scenario D): session at iteration 0, agent omits every
state field and saves a preview; the resulting session has iteration 1,
carried-over state and context, and the new preview's id. -/
theorem c4_omitted_fields_fallback_witness :
    outD.iteration = sessionD.iteration + 1 ∧
    outD.state = sessionD.state ∧
    outD.goalPreviewId = (previewResult respD "u1" sessionD.id
      sessionD.goalPreviewId "p1" storeD.previews).1 ∧
    outD.sessionActive = (if actionType respD = "finalize_goal" then false
      else sessionD.sessionActive) ∧
    outD.context = resolveContext sessionD reqD.contextOverride := by
  obtain ⟨hi, hs, hp, -, ha, hc⟩ := c4_omitted_fields_fallback storeD "u1"
    reqD respD "p1" sessionD (by decide) (by decide) (by decide) rfl rfl
    rfl outD rfl
  exact ⟨hi rfl, hs rfl, hp rfl, ha rfl, hc rfl⟩

/-! Claim C5 -/

def sessionC5 : Session :=
  { id := "s1", userId := "u1", chatId := "c1",
    state := SessionStep.plan_iteration, iteration := 1,
    goalPreviewId := none, sessionActive := true, context := [] }

def storeC5 : Store :=
  { sessions := [sessionC5], chatLog := [], previews := [] }

def reqC5 : MsgRequest :=
  { sessionId := "s1", message := "m", contextOverride := none,
    payloadUserId := none }

def respC5State : RespState :=
  { state := none, iteration := some 0, sessionActive := none,
    goalPreviewId := none }

def respC5 : AgentResponse :=
  { reply := "r", action := none, state := some respC5State,
    context := none }

def outC5 : MsgResponse :=
  { sessionId := "s1", reply := "r", action := none,
    state := SessionStep.plan_iteration, iteration := 0,
    sessionActive := true, goalPreviewId := none, context := [] }

/-- Claim C5 counterexample: a session at iteration 1 takes a successful
turn in which the agent supplies iteration 0; the persisted iteration is 0,
strictly below the previous value — the counter is not non-decreasing for
every iteration the agent may supply. -/
theorem c5_iteration_decrease_counterexample :
    (postSessionMessage storeC5 "u1" reqC5 (.ok respC5) "p1").1 =
      .ok outC5 ∧
    outC5.iteration < sessionC5.iteration :=
  ⟨rfl, by decide⟩

/-- Claim C5 (amended): the persisted iteration after a successful turn is
the agent-supplied value when one is present and the previous iteration + 1
otherwise; it is therefore non-decreasing whenever the agent omits the field
or supplies a value no smaller than the previous one (an agent-supplied
smaller value is stored as-is and decreases the counter). -/
theorem c5_iteration_monotone_amended (st : Store) (auth : String)
    (req : MsgRequest) (resp : AgentResponse) (freshId : String)
    (session : Session)
    (h1 : strTrim req.sessionId ≠ "") (h2 : strTrim req.message ≠ "")
    (h3 : ¬ (req.payloadUserId ≠ none ∧ req.payloadUserId ≠ some auth))
    (hfind : st.sessions.find? (fun s => s.id == req.sessionId) =
      some session)
    (hown : session.userId = auth) (hact : session.sessionActive = true)
    (hiter : respIteration resp = none ∨
      ∃ i, respIteration resp = some i ∧ session.iteration ≤ i) :
    ∀ out, (postSessionMessage st auth req (.ok resp) freshId).1 =
        .ok out →
      out.iteration = (respIteration resp).getD (session.iteration + 1) ∧
      session.iteration ≤ out.iteration := by
  intro out hout
  rw [postSessionMessage_run st auth req resp freshId session h1 h2 h3
    hfind hown hact] at hout
  have hout' : toMsgResponse (applyAgentTurn session
      (resolveContext session req.contextOverride) resp auth freshId
      st.previews).1 resp = out := by
    simpa using hout
  subst hout'
  have hshow : (toMsgResponse (applyAgentTurn session
      (resolveContext session req.contextOverride) resp auth freshId
      st.previews).1 resp).iteration =
      (respIteration resp).getD (session.iteration + 1) := rfl
  refine ⟨hshow, ?_⟩
  rw [hshow]
  rcases hiter with h | ⟨i, hi, hle⟩
  · rw [h, Option.getD_none]
    omega
  · rw [hi, Option.getD_some]
    exact hle

def sessionC5w : Session :=
  { id := "s1", userId := "u1", chatId := "c1",
    state := SessionStep.plan_iteration, iteration := 4,
    goalPreviewId := none, sessionActive := true, context := [] }

def storeC5w : Store :=
  { sessions := [sessionC5w], chatLog := [], previews := [] }

def respC5w : AgentResponse :=
  { reply := "r", action := none, state := none, context := none }

def outC5w : MsgResponse :=
  { sessionId := "s1", reply := "r", action := none,
    state := SessionStep.plan_iteration, iteration := 5,
    sessionActive := true, goalPreviewId := none, context := [] }

/-- Witness for the amended C5: the agent omits iteration, so the counter
advances from 4 to 5 and does not decrease. -/
theorem c5_iteration_monotone_amended_witness :
    outC5w.iteration = (respIteration respC5w).getD
      (sessionC5w.iteration + 1) ∧
    sessionC5w.iteration ≤ outC5w.iteration :=
  c5_iteration_monotone_amended storeC5w "u1" reqC5 respC5w "p1" sessionC5w
    (by decide) (by decide) (by decide) rfl rfl rfl (Or.inl rfl) outC5w rfl

/-! Claim C6 -/

def s0C6 : Session := createSessionRecord "s1" "c1" "u1" []

def respC6State : RespState :=
  { state := some SessionStep.finalized, iteration := some 1,
    sessionActive := some true, goalPreviewId := none }

def respC6 : AgentResponse :=
  { reply := "r", action := some { type := "none", payload := none },
    state := some respC6State, context := none }

def s1C6 : Session :=
  (applyAgentTurn s0C6 (resolveContext s0C6 none) respC6 "u1" "p1" []).1

/-- Claim C6 counterexample: starting from a freshly created session, one
successful turn whose agent response carries state = finalized together
with sessionActive = true and a non-finalize action reaches a session that
is finalized yet still active — the claimed invariant fails on the
lifecycle as implemented. -/
theorem c6_finalized_active_counterexample :
    ReachableSession s1C6 ∧
    s1C6.state = SessionStep.finalized ∧
    s1C6.sessionActive = true :=
  ⟨ReachableSession.turn s0C6 none respC6 "p1" []
      (ReachableSession.init "s1" "c1" "u1" []) rfl,
    rfl, rfl⟩

/-- Claim C6 (amended): under the mas.md agent contract — a response whose
state carries step finalized also carries a finalize_goal action — every
session reachable through the lifecycle satisfies: state = finalized implies
sessionActive = false.  (Inactivity is then permanent, because the message
handler rejects any further message for an inactive session.) -/
theorem c6_finalized_inactive_under_contract (s : Session)
    (h : ContractReachable s) :
    s.state = SessionStep.finalized → s.sessionActive = false := by
  induction h with
  | init sid chatId userId ctx =>
      intro hst
      simp [createSessionRecord] at hst
  | turn s override resp freshId previews hre hact hcontract ih =>
      intro hst
      have hstate : (applyAgentTurn s (resolveContext s override) resp
          s.userId freshId previews).1.state =
          (respStep resp).getD s.state := rfl
      rw [hstate] at hst
      cases hr : respStep resp with
      | some stp =>
          rw [hr, Option.getD_some] at hst
          subst hst
          have hfin := hcontract hr
          exact applyAgentTurn_finalize_inactive s (resolveContext s
            override) resp s.userId freshId previews hfin
      | none =>
          rw [hr, Option.getD_none] at hst
          rw [ih hst] at hact
          cases hact

def respC6w : AgentResponse :=
  { reply := "r", action := some { type := "finalize_goal", payload := none },
    state := some respC6State, context := none }

def s1C6w : Session :=
  (applyAgentTurn s0C6 (resolveContext s0C6 none) respC6w "u1" "p1" []).1

/-- Witness for the amended C6: a contract-respecting finalize turn reaches
a finalized session, and the invariant yields its inactivity. -/
theorem c6_finalized_inactive_under_contract_witness :
    s1C6w.state = SessionStep.finalized ∧ s1C6w.sessionActive = false :=
  ⟨rfl,
    c6_finalized_inactive_under_contract s1C6w
      (ContractReachable.turn s0C6 none respC6w "p1" []
        (ContractReachable.init "s1" "c1" "u1" []) rfl (fun _ => rfl))
      rfl⟩

/-! Claim C7 -/

/-- Claim C7: a well-formed message naming an owned session whose
sessionActive is false is rejected with 409 — for every possible agent
outcome, so before the agent is consulted — and the store is completely
unchanged: no chat append, no preview write, no session update.  Since the
store is unchanged, resubmitting the same message meets the same state and
the same 409: the condition is terminal, not retryable. -/
theorem c7_inactive_session_rejected (st : Store) (auth : String)
    (req : MsgRequest) (agentOutcome : Except ApiErr AgentResponse)
    (freshId : String) (session : Session)
    (h1 : strTrim req.sessionId ≠ "") (h2 : strTrim req.message ≠ "")
    (h3 : ¬ (req.payloadUserId ≠ none ∧ req.payloadUserId ≠ some auth))
    (hfind : st.sessions.find? (fun s => s.id == req.sessionId) =
      some session)
    (hown : session.userId = auth)
    (hinact : session.sessionActive = false) :
    (postSessionMessage st auth req agentOutcome freshId).1 =
      .error ⟨409, "Session is finalized and cannot accept new messages.",
        .noDetails⟩ ∧
    (postSessionMessage st auth req agentOutcome freshId).2 = st := by
  rw [postSessionMessage, if_neg h1, if_neg h2, if_neg h3, hfind]
  dsimp only
  rw [if_neg (fun h => h hown), if_pos hinact]
  exact ⟨rfl, rfl⟩

def sessionC7 : Session :=
  { id := "s1", userId := "u1", chatId := "c1",
    state := SessionStep.finalized, iteration := 3, goalPreviewId := none,
    sessionActive := false, context := [] }

def storeC7 : Store :=
  { sessions := [sessionC7], chatLog := [], previews := [] }

def reqC7 : MsgRequest :=
  { sessionId := "s1", message := "hello", contextOverride := none,
    payloadUserId := none }

/-- Witness for C7: a message into a finalized (inactive) session comes back
as a 409 and leaves the store untouched, whatever the agent would have
answered. -/
theorem c7_inactive_session_rejected_witness :
    (postSessionMessage storeC7 "u1" reqC7
        (.ok { reply := "r", action := none, state := none,
               context := none }) "p1").1 =
      .error ⟨409, "Session is finalized and cannot accept new messages.",
        .noDetails⟩ ∧
    (postSessionMessage storeC7 "u1" reqC7
        (.ok { reply := "r", action := none, state := none,
               context := none }) "p1").2 = storeC7 :=
  c7_inactive_session_rejected storeC7 "u1" reqC7 _ "p1" sessionC7
    (by decide) (by decide) (by decide) rfl rfl rfl

/-! Claim C10 -/

/-- Claim C10: when the agent call itself fails, the handler surfaces that
error and the only store change of the whole turn is the user's inbound
chat message, appended before the call: sessions (state, iteration,
goalPreviewId, sessionActive, context) and previews are untouched and no
agent reply is appended. -/
theorem c10_agent_failure_preserves_state (st : Store) (auth : String)
    (req : MsgRequest) (freshId : String) (session : Session) (e : ApiErr)
    (h1 : strTrim req.sessionId ≠ "") (h2 : strTrim req.message ≠ "")
    (h3 : ¬ (req.payloadUserId ≠ none ∧ req.payloadUserId ≠ some auth))
    (hfind : st.sessions.find? (fun s => s.id == req.sessionId) =
      some session)
    (hown : session.userId = auth) (hact : session.sessionActive = true) :
    (postSessionMessage st auth req (.error e) freshId).1 = .error e ∧
    (postSessionMessage st auth req (.error e) freshId).2.sessions =
      st.sessions ∧
    (postSessionMessage st auth req (.error e) freshId).2.previews =
      st.previews ∧
    (postSessionMessage st auth req (.error e) freshId).2.chatLog =
      st.chatLog ++
        [{ chatId := session.chatId, sessionId := session.id,
           sender := Sender.user, message := req.message }] := by
  rw [postSessionMessage, if_neg h1, if_neg h2, if_neg h3, hfind]
  dsimp only
  rw [if_neg (fun h => h hown), if_neg (by simp [hact])]
  exact ⟨rfl, rfl, rfl, rfl⟩

def sessionC10 : Session :=
  { id := "s1", userId := "u1", chatId := "c1",
    state := SessionStep.plan_generated, iteration := 0,
    goalPreviewId := none, sessionActive := true, context := [] }

def storeC10 : Store :=
  { sessions := [sessionC10], chatLog := [], previews := [] }

def reqC10 : MsgRequest :=
  { sessionId := "s1", message := "hi", contextOverride := none,
    payloadUserId := none }

def agentErrC10 : ApiErr :=
  ⟨503, "Agent service unavailable. Please try again later.", .noDetails⟩

/-- Witness for C10: an unreachable agent surfaces as the 503 error while
the store keeps only the user's message. -/
theorem c10_agent_failure_preserves_state_witness :
    (postSessionMessage storeC10 "u1" reqC10 (.error agentErrC10)
        "p1").1 = .error agentErrC10 ∧
    (postSessionMessage storeC10 "u1" reqC10 (.error agentErrC10)
        "p1").2.sessions = storeC10.sessions ∧
    (postSessionMessage storeC10 "u1" reqC10 (.error agentErrC10)
        "p1").2.previews = storeC10.previews ∧
    (postSessionMessage storeC10 "u1" reqC10 (.error agentErrC10)
        "p1").2.chatLog = storeC10.chatLog ++
      [{ chatId := sessionC10.chatId, sessionId := sessionC10.id,
         sender := Sender.user, message := reqC10.message }] :=
  c10_agent_failure_preserves_state storeC10 "u1" reqC10 "p1" sessionC10
    agentErrC10 (by decide) (by decide) (by decide) rfl rfl rfl

end Gritto
